import Mathlib

/-!
Verification model of the gplay command-line tool (src/src/lib.rs and
src/src/bin/gplay.rs). The remote service, local filesystem and
authentication provider are scripted as explicit outcome values, one per
call site; each tool operation is embedded as a pure function returning
the ordered trace of observable events (HTTP requests, log lines, file
reads, token requests) together with the Rust function's `Result` value.
-/

namespace Gplay

/-- JSON values, as decoded by serde from response bodies.  Numbers are
modelled as integers (the only numeric field, `versionCode`, is an `i32`). -/
inductive Json where
  | jnull
  | jbool (b : Bool)
  | jnum (n : Int)
  | jstr (s : String)
  | jarr (xs : List Json)
  | jobj (fields : List (String × Json))

/-- Field lookup in a JSON object's field list (first match wins). -/
def findField : List (String × Json) → String → Option Json
  | [], _ => none
  | (k, v) :: rest, key => if k = key then some v else findField rest key

/-- Field access on a JSON value; serde requires an object. -/
def Json.getField : Json → String → Option Json
  | .jobj fields, key => findField fields key
  | _, _ => none

/-- Decode a JSON value as a string. -/
def Json.asStr : Json → Option String
  | .jstr s => some s
  | _ => none

/-- Decode a JSON value as an array. -/
def Json.asArr : Json → Option (List Json)
  | .jarr xs => some xs
  | _ => none

/-- Decode a JSON value as an `i32` (range-checked, as serde does). -/
def Json.asI32 : Json → Option Int
  | .jnum n => if -(2 ^ 31) ≤ n ∧ n < 2 ^ 31 then some n else none
  | _ => none

/-- `EditInsertResult { id: String }` (lib.rs): decode yields the edit id. -/
def decodeEditInsertResult (j : Json) : Option String :=
  match j.getField "id" with
  | some v => v.asStr
  | none => none

/-- `Bundle { versionCode: i32, sha256: String }` (lib.rs). -/
structure Bundle where
  version_code : Int
  sha256 : String
  deriving DecidableEq

/-- Decoder for `Bundle` (both fields required, as in the serde derive). -/
def decodeBundle (j : Json) : Option Bundle :=
  match j.getField "versionCode" with
  | none => none
  | some vc =>
    match vc.asI32 with
    | none => none
    | some n =>
      match j.getField "sha256" with
      | none => none
      | some sv =>
        match sv.asStr with
        | none => none
        | some s => some ⟨n, s⟩

/-- `ErrorResponse { error: ApiError { message: String } }` (lib.rs):
decode yields the embedded error message. -/
def decodeErrorResponse (j : Json) : Option String :=
  match j.getField "error" with
  | none => none
  | some e =>
    match e.getField "message" with
    | none => none
    | some m => m.asStr

/-- Decode a JSON array as a list of bundles. -/
def decodeBundleItems : List Json → Option (List Bundle)
  | [] => some []
  | j :: rest =>
    match decodeBundle j with
    | none => none
    | some b =>
      match decodeBundleItems rest with
      | none => none
      | some bs => some (b :: bs)

/-- `EditBundlesList { bundles: Vec<Bundle> }` (lib.rs). -/
def decodeEditBundlesList (j : Json) : Option (List Bundle) :=
  match j.getField "bundles" with
  | none => none
  | some v =>
    match v.asArr with
    | none => none
    | some xs => decodeBundleItems xs

/-- `Release { status: String, versionCodes: Vec<String> }` as declared in
lib.rs lines 105-110: note `version_codes` is a required `Vec<String>`,
not an `Option`. -/
structure Release where
  status : String
  version_codes : List String
  deriving DecidableEq

/-- Decode a JSON array as a list of strings. -/
def decodeStrItems : List Json → Option (List String)
  | [] => some []
  | j :: rest =>
    match j.asStr with
    | none => none
    | some s =>
      match decodeStrItems rest with
      | none => none
      | some ss => some (s :: ss)

/-- Decoder for the lib.rs `Release`: both `status` and `versionCodes`
must be present (serde rejects a missing required field). -/
def decodeRelease (j : Json) : Option Release :=
  match j.getField "status" with
  | none => none
  | some sv =>
    match sv.asStr with
    | none => none
    | some st =>
      match j.getField "versionCodes" with
      | none => none
      | some vv =>
        match vv.asArr with
        | none => none
        | some xs =>
          match decodeStrItems xs with
          | none => none
          | some vcs => some ⟨st, vcs⟩

/-- `Track { track: String, releases: Vec<Release> }` (lib.rs). -/
structure Track where
  name : String
  releases : List Release
  deriving DecidableEq

/-- Decode a JSON array as a list of releases. -/
def decodeReleaseItems : List Json → Option (List Release)
  | [] => some []
  | j :: rest =>
    match decodeRelease j with
    | none => none
    | some r =>
      match decodeReleaseItems rest with
      | none => none
      | some rs => some (r :: rs)

/-- Decoder for the lib.rs `Track`. -/
def decodeTrack (j : Json) : Option Track :=
  match j.getField "track" with
  | none => none
  | some nv =>
    match nv.asStr with
    | none => none
    | some n =>
      match j.getField "releases" with
      | none => none
      | some rv =>
        match rv.asArr with
        | none => none
        | some xs =>
          match decodeReleaseItems xs with
          | none => none
          | some rs => some ⟨n, rs⟩

/-- Decode a JSON array as a list of tracks. -/
def decodeTrackItems : List Json → Option (List Track)
  | [] => some []
  | j :: rest =>
    match decodeTrack j with
    | none => none
    | some t =>
      match decodeTrackItems rest with
      | none => none
      | some ts => some (t :: ts)

/-- `TracksList { tracks: Vec<Track> }` (lib.rs). -/
def decodeTracksList (j : Json) : Option (List Track) :=
  match j.getField "tracks" with
  | none => none
  | some v =>
    match v.asArr with
    | none => none
    | some xs => decodeTrackItems xs

/-- HTTP methods used by the tool. -/
inductive Method where
  | get
  | post
  | put
  | delete
  deriving DecidableEq

/-- The endpoints the tool addresses, at call-site granularity; the wire
method and URL of each are given by `Endpoint.method` and `Endpoint.url`,
mirroring the `format!` strings in lib.rs. -/
inductive Endpoint where
  | openEdit (pkg : String)
  | bundlesList (pkg id : String)
  | tracksList (pkg id : String)
  | uploadBundle (pkg id : String)
  | trackAssign (pkg id track : String)
  | commitEdit (pkg id : String)
  | deleteEdit (pkg id : String)
  | deleteViaCommitPath (pkg id : String)
  deriving DecidableEq

/-- `GplayTool::EDIT_URL` (lib.rs). -/
def EDIT_URL : String :=
  "https://androidpublisher.googleapis.com/androidpublisher/v3/applications"

/-- `GplayTool::UPLOAD_URL` (lib.rs). -/
def UPLOAD_URL : String :=
  "https://androidpublisher.googleapis.com/upload/androidpublisher/v3/applications"

/-- The URL each endpoint is addressed at, as built by `format!` in lib.rs. -/
def Endpoint.url : Endpoint → String
  | .openEdit pkg => EDIT_URL ++ "/" ++ pkg ++ "/edits"
  | .bundlesList pkg id => EDIT_URL ++ "/" ++ pkg ++ "/edits/" ++ id ++ "/bundles"
  | .tracksList pkg id => EDIT_URL ++ "/" ++ pkg ++ "/edits/" ++ id ++ "/tracks"
  | .uploadBundle pkg id =>
      UPLOAD_URL ++ "/" ++ pkg ++ "/edits/" ++ id ++ "/bundles?uploadType=media"
  | .trackAssign pkg id track =>
      EDIT_URL ++ "/" ++ pkg ++ "/edits/" ++ id ++ "/tracks/" ++ track
  | .commitEdit pkg id => EDIT_URL ++ "/" ++ pkg ++ "/edits/" ++ id ++ ":commit"
  | .deleteEdit pkg id => EDIT_URL ++ "/" ++ pkg ++ "/edits/" ++ id
  | .deleteViaCommitPath pkg id => EDIT_URL ++ "/" ++ pkg ++ "/edits/" ++ id ++ ":commit"

/-- The HTTP method of each call site (the reqwest verb used in lib.rs). -/
def Endpoint.method : Endpoint → Method
  | .openEdit _ => .post
  | .bundlesList _ _ => .get
  | .tracksList _ _ => .get
  | .uploadBundle _ _ => .post
  | .trackAssign _ _ _ => .put
  | .commitEdit _ _ => .post
  | .deleteEdit _ _ => .delete
  | .deleteViaCommitPath _ _ => .delete

/-- Observable events of one tool invocation, in order: HTTP requests,
log lines at the three `GplayLog` severities, local file reads and the
OAuth token request. -/
inductive Event where
  | req (ep : Endpoint)
  | logOut (s : String)
  | logWarn (s : String)
  | logErr (s : String)
  | fileRead (path : String)
  | authToken
  deriving DecidableEq

/-- Outcome of one `send().await` on the scripted service: a transport
error (connection failure or timeout), or an HTTP reply. -/
inductive Outcome where
  | err (e : String)
  | reply (code : Nat) (text : String) (body : Json)

/-- Errors propagated by `?` out of the tool's functions. -/
inductive RunErr where
  | transport (e : String)
  | decode
  | io (ctx : String) (e : String)
  | auth (e : String)

/-- Display of a propagated error, as printed by the driver. -/
def RunErr.message : RunErr → String
  | .transport e => e
  | .decode => "error decoding response body"
  | .io ctx e => ctx ++ ": " ++ e
  | .auth e => e

/-- `StatusCode::is_success()`: 200 ≤ code ≤ 299. -/
def isSuccess (code : Nat) : Bool :=
  decide (200 ≤ code ∧ code ≤ 299)

/-- The error-message interpretation used at the track-assignment and
commit call sites of lib.rs: the `ErrorResponse` body message when it
decodes, else the status's display text. -/
def interpretError (body : Json) (text : String) : String :=
  match decodeErrorResponse body with
  | some m => m
  | none => text

/-- One log line per listed bundle (lib.rs `list_bundles`). -/
def bundleLine (b : Bundle) : String :=
  "Version " ++ toString b.version_code ++ " [" ++ b.sha256 ++ "]"

/-- One log line per listed track (lib.rs `list_tracks`). -/
def trackLine (t : Track) : String :=
  "Track '" ++ t.name ++ "'"

/-- Scripted service behaviour for a `list_bundles` / `list_tracks` run:
one outcome per call site (each site fires at most once per run). -/
structure ListService where
  openResp : Outcome
  fetchResp : Outcome
  deleteResp : Outcome

/-- Scripted environment for an `upload_bundle` run: one outcome per
remote call site, plus the result of `std::fs::read` on the bundle file. -/
structure UploadService where
  openResp : Outcome
  fileBytes : Except String (List Nat)
  uploadResp : Outcome
  trackResp : Outcome
  commitResp : Outcome
  rollbackDeleteResp : Outcome

/-- Shared tail of both listing functions (lib.rs lines 216-235 and
282-301): log "Deleting edit", issue the plain DELETE, warn on a
non-success status, propagate a transport error of the delete itself. -/
def deleteTail (o : Outcome) (pkg id : String) (t : List Event) :
    List Event × Except RunErr Unit :=
  let t2 := t ++ [Event.logOut "Deleting edit", Event.req (.deleteEdit pkg id)]
  match o with
  | .err e => (t2, .error (.transport e))
  | .reply code _ _ =>
    (t2 ++ (if isSuccess code then []
            else [Event.logWarn ("Unable to delete edit: " ++ toString code)]),
     .ok ())

/-- `GplayTool::list_bundles` (lib.rs lines 172-241), with the scripted
service standing in for reqwest and the remote API. -/
def list_bundles (svc : ListService) (pkg : String) :
    List Event × Except RunErr Unit :=
  let t0 := [Event.logOut "Opening an edit", Event.req (.openEdit pkg)]
  match svc.openResp with
  | .err e => (t0, .error (.transport e))
  | .reply code _ body =>
    if isSuccess code then
      match decodeEditInsertResult body with
      | none => (t0, .error .decode)
      | some id =>
        let t1 := t0 ++ [Event.req (.bundlesList pkg id)]
        match svc.fetchResp with
        | .err e => (t1, .error (.transport e))
        | .reply code2 _ body2 =>
          if isSuccess code2 then
            match decodeEditBundlesList body2 with
            | none => (t1, .error .decode)
            | some bs =>
              deleteTail svc.deleteResp pkg id
                (t1 ++ bs.map (fun b => Event.logOut (bundleLine b)))
          else
            deleteTail svc.deleteResp pkg id
              (t1 ++ [Event.logErr "Unable to get list of bundles"])
    else
      (t0 ++ [Event.logErr "Could not open edit"], .ok ())

/-- `GplayTool::list_tracks` (lib.rs lines 243-307). -/
def list_tracks (svc : ListService) (pkg : String) :
    List Event × Except RunErr Unit :=
  let t0 := [Event.logOut "Opening an edit", Event.req (.openEdit pkg)]
  match svc.openResp with
  | .err e => (t0, .error (.transport e))
  | .reply code _ body =>
    if isSuccess code then
      match decodeEditInsertResult body with
      | none => (t0, .error .decode)
      | some id =>
        let t1 := t0 ++ [Event.req (.tracksList pkg id)]
        match svc.fetchResp with
        | .err e => (t1, .error (.transport e))
        | .reply code2 _ body2 =>
          if isSuccess code2 then
            match decodeTracksList body2 with
            | none => (t1, .error .decode)
            | some ts =>
              deleteTail svc.deleteResp pkg id
                (t1 ++ ts.map (fun t => Event.logOut (trackLine t)))
          else
            deleteTail svc.deleteResp pkg id
              (t1 ++ [Event.logErr "Unable to get list of tracks"])
    else
      (t0 ++ [Event.logErr "Could not open edit"], .ok ())

/-- `GplayTool::upload_bundle` (lib.rs lines 309-460).  The trace records
every request, log line and the file read in program order; the second
component is the function's `Result`.  Note the source's actual control
flow: a track-assignment failure only logs and still falls through to the
commit; the rollback after an upload-status failure issues a DELETE on the
`:commit` URL; a file-read failure propagates with no delete. -/
def upload_bundle (svc : UploadService) (pkg aab_file track_name : String)
    (timeout_secs : Nat) : List Event × Except RunErr Unit :=
  let _ := timeout_secs
  let t0 := [Event.logOut "Opening an edit", Event.req (.openEdit pkg)]
  match svc.openResp with
  | .err e => (t0, .error (.transport e))
  | .reply code _ body =>
    if isSuccess code then
      match decodeEditInsertResult body with
      | none => (t0, .error .decode)
      | some id =>
        match svc.fileBytes with
        | .error e =>
          (t0 ++ [Event.fileRead aab_file],
           .error (.io "Unable to read bundle file" e))
        | .ok bytes =>
          let t1 := t0 ++ [Event.fileRead aab_file,
            Event.logOut ("Read bundle file '" ++ aab_file ++ "' ("
              ++ toString bytes.length ++ " bytes)"),
            Event.logOut "Uploading bundle",
            Event.req (.uploadBundle pkg id)]
          match svc.uploadResp with
          | .err e => (t1, .error (.transport e))
          | .reply code2 _ body2 =>
            if isSuccess code2 then
              match decodeBundle body2 with
              | none => (t1, .error .decode)
              | some b =>
                let t2 := t1 ++ [Event.logOut ("Uploaded Version "
                    ++ toString b.version_code ++ " [" ++ b.sha256 ++ "]"),
                  Event.req (.trackAssign pkg id track_name)]
                match svc.trackResp with
                | .err e => (t2, .error (.transport e))
                | .reply code3 text3 body3 =>
                  let t3 := t2
                    ++ (if isSuccess code3 then []
                        else [Event.logErr ("Unable to set track: "
                          ++ interpretError body3 text3)])
                    ++ [Event.req (.commitEdit pkg id)]
                  match svc.commitResp with
                  | .err e => (t3, .error (.transport e))
                  | .reply code4 text4 body4 =>
                    (t3 ++ (if isSuccess code4 then [Event.logOut "Committed edit"]
                            else [Event.logErr ("Failed to commit edit: "
                              ++ interpretError body4 text4)]),
                     .ok ())
            else
              let t2 := t1 ++ [Event.logErr ("Unable to upload bundle file: "
                  ++ toString code2),
                Event.req (.deleteViaCommitPath pkg id)]
              match svc.rollbackDeleteResp with
              | .err e => (t2, .error (.transport e))
              | .reply code5 _ _ =>
                (t2 ++ (if isSuccess code5 then []
                        else [Event.logWarn ("Unable to delete edit: "
                          ++ toString code5)]),
                 .ok ())
    else
      (t0 ++ [Event.logErr "Could not open edit"], .ok ())

/-- Subcommands of the CLI (lib.rs `Commands`). -/
inductive Commands where
  | listBundles
  | listTracks
  | upload (aab_file track_name : String) (timeout_secs : Nat)

/-- Result of `Cli::try_parse_from`: a parse/help short-circuit with its
display text, or a parsed command line (subcommand optional). -/
inductive ParseOutcome where
  | failure (msg : String)
  | success (cmd : Option Commands)

/-- Scripted collaborators for one `GplayTool::run` invocation:
argument parsing, credential loading, token fetching, and the scripted
service behaviour for whichever subcommand runs. -/
structure RunService where
  parse : ParseOutcome
  credLoad : Except String Unit
  tokenFetch : Except String String
  listB : ListService
  listT : ListService
  upld : UploadService

/-- `GplayTool::run` (lib.rs lines 122-170): on parse failure print the
message and return Ok; otherwise announce the scope, load the credentials
file, request the token, then dispatch on the subcommand (doing nothing
when there is none). -/
def run (svc : RunService) (pkg : String) : List Event × Except RunErr Unit :=
  match svc.parse with
  | .failure msg => ([Event.logOut msg], .ok ())
  | .success cmd =>
    let t0 := [Event.logOut "Requesting OAuth token with Android Publisher scope"]
    match svc.credLoad with
    | .error e => (t0, .error (.auth e))
    | .ok _ =>
      let t1 := t0 ++ [Event.authToken]
      match svc.tokenFetch with
      | .error e => (t1, .error (.auth e))
      | .ok _ =>
        match cmd with
        | none => (t1, .ok ())
        | some .listBundles =>
          let r := list_bundles svc.listB pkg
          (t1 ++ r.1, r.2)
        | some .listTracks =>
          let r := list_tracks svc.listT pkg
          (t1 ++ r.1, r.2)
        | some (.upload aab track ts) =>
          let r := upload_bundle svc.upld pkg aab track ts
          (t1 ++ r.1, r.2)

/-- `main` (src/bin/gplay.rs lines 26-33): run the tool; on an `Err`
result log the error at error severity and exit 1, otherwise exit 0. -/
def mainExit (svc : RunService) (pkg : String) : List Event × Nat :=
  match run svc pkg with
  | (t, .ok _) => (t, 0)
  | (t, .error e) => (t ++ [Event.logErr e.message], 1)

/-- An event is an HTTP request. -/
def isReqEvent : Event → Bool
  | .req _ => true
  | _ => false

/-- An event is an HTTP request sent with the DELETE method. -/
def isDeleteReq : Event → Bool
  | .req ep => ep.method == .delete
  | _ => false

/-- An event is the plain delete-edit request (DELETE `/edits/id`). -/
def isPlainDeleteReq : Event → Bool
  | .req (.deleteEdit _ _) => true
  | _ => false

/-- An event is the rollback DELETE aimed at the `:commit` URL. -/
def isCommitPathDeleteReq : Event → Bool
  | .req (.deleteViaCommitPath _ _) => true
  | _ => false

/-- An event is the commit POST (POST `/edits/id:commit`). -/
def isCommitPost : Event → Bool
  | .req (.commitEdit _ _) => true
  | _ => false

/-- An event is the track-assignment PUT. -/
def isTrackPut : Event → Bool
  | .req (.trackAssign _ _ _) => true
  | _ => false

/-- An event is the open-edit POST. -/
def isOpenReq : Event → Bool
  | .req (.openEdit _) => true
  | _ => false

/-- An event is a local read of the bundle file. -/
def isFileReadEvent : Event → Bool
  | .fileRead _ => true
  | _ => false

/-- An event is a log line at error severity. -/
def isErrLogEvent : Event → Bool
  | .logErr _ => true
  | _ => false

/-- The outcome carries an HTTP reply (as opposed to a transport error). -/
def Outcome.gotReply : Outcome → Bool
  | .err _ => false
  | .reply _ _ _ => true

/-- Concrete open-edit success body: the service assigns edit id "ed1". -/
def idBody : Json := .jobj [("id", .jstr "ed1")]

/-- Concrete upload success body: versionCode 7, sha256 "abc". -/
def bundleBody : Json := .jobj [("versionCode", .jnum 7), ("sha256", .jstr "abc")]

/-- Concrete error body carrying the message "track not found". -/
def trackNotFoundBody : Json :=
  .jobj [("error", .jobj [("message", .jstr "track not found")])]

/-- Concrete error body carrying the message "boom". -/
def boomBody : Json := .jobj [("error", .jobj [("message", .jstr "boom")])]

/-- Concrete empty JSON object body. -/
def emptyBody : Json := .jobj []

/-- Scripted upload run: everything succeeds except the track-assignment
PUT, which returns 404 with the body `trackNotFoundBody` (the scenario of
the spec's track-assignment-failure property, file of 10 bytes). -/
def svcTrackFail : UploadService :=
  { openResp := .reply 200 "200 OK" idBody
    fileBytes := .ok [0, 1, 2, 3, 4, 5, 6, 7, 8, 9]
    uploadResp := .reply 200 "200 OK" bundleBody
    trackResp := .reply 404 "404 Not Found" trackNotFoundBody
    commitResp := .reply 200 "200 OK" emptyBody
    rollbackDeleteResp := .reply 200 "200 OK" emptyBody }

end Gplay

namespace Gplay

/-- C1: the claim as stated is false on the code.  When the track
assignment PUT fails with `\x7berror:\x7bmessage:"track not found"\x7d\x7d`, the
session is NOT deleted (no DELETE request of any kind appears in the
trace) and no error at all is returned to the caller: the run result is
`Ok`.  The error body was decodable, so the claimed propagated error
"track not found" exists but is only logged, never returned. -/
theorem c1_counterexample :
    (upload_bundle svcTrackFail "com.example.app" "app.aab" "internal" 300).1.any
      isDeleteReq = false ∧
    (upload_bundle svcTrackFail "com.example.app" "app.aab" "internal" 300).2 =
      .ok () ∧
    decodeErrorResponse trackNotFoundBody = some "track not found" ∧
    (upload_bundle svcTrackFail "com.example.app" "app.aab" "internal" 300).1.any
      (fun e => e == Event.logErr ("Unable to set track: track not found")) = true :=
  ⟨by decide, by rfl, by decide, by decide⟩

/-- C1 (amended): if the upload succeeds but the track-assignment PUT
returns a non-success status whose body decodes to message m, the tool
logs "Unable to set track: m" at error severity (exactly the embedded
message, e.g. "track not found"), issues no delete of any kind, still
issues the commit POST, and returns success to the caller. -/
theorem c1_track_failure_commits_anyway
    (svc : UploadService) (pkg aab track : String) (ts : Nat)
    (code1 : Nat) (text1 : String) (body1 : Json) (id : String)
    (bytes : List Nat)
    (code2 : Nat) (text2 : String) (body2 : Json) (b : Bundle)
    (code3 : Nat) (text3 : String) (body3 : Json) (m : String)
    (code4 : Nat) (text4 : String) (body4 : Json)
    (hopen : svc.openResp = .reply code1 text1 body1)
    (hsucc1 : isSuccess code1 = true)
    (hid : decodeEditInsertResult body1 = some id)
    (hfile : svc.fileBytes = .ok bytes)
    (hup : svc.uploadResp = .reply code2 text2 body2)
    (hsucc2 : isSuccess code2 = true)
    (hb : decodeBundle body2 = some b)
    (htr : svc.trackResp = .reply code3 text3 body3)
    (hfail : isSuccess code3 = false)
    (hmsg : decodeErrorResponse body3 = some m)
    (hcm : svc.commitResp = .reply code4 text4 body4) :
    (upload_bundle svc pkg aab track ts).1.any isDeleteReq = false ∧
    Event.logErr ("Unable to set track: " ++ m) ∈
      (upload_bundle svc pkg aab track ts).1 ∧
    (upload_bundle svc pkg aab track ts).1.any isCommitPost = true ∧
    (upload_bundle svc pkg aab track ts).2 = .ok () := by
  cases h4 : isSuccess code4 <;>
    simp [upload_bundle, hopen, hsucc1, hid, hfile, hup, hsucc2, hb, htr, hfail,
      hcm, isDeleteReq, isCommitPost, Endpoint.method, interpretError, hmsg, h4]

/-- C1 witness: the amended theorem applied to the concrete scripted
run `svcTrackFail` with message "track not found". -/
theorem c1_track_failure_commits_anyway_witness :
    (upload_bundle svcTrackFail "com.example.app" "app.aab" "internal" 300).1.any
      isDeleteReq = false ∧
    Event.logErr ("Unable to set track: " ++ "track not found") ∈
      (upload_bundle svcTrackFail "com.example.app" "app.aab" "internal" 300).1 ∧
    (upload_bundle svcTrackFail "com.example.app" "app.aab" "internal" 300).1.any
      isCommitPost = true ∧
    (upload_bundle svcTrackFail "com.example.app" "app.aab" "internal" 300).2 =
      .ok () :=
  c1_track_failure_commits_anyway svcTrackFail "com.example.app" "app.aab"
    "internal" 300 200 "200 OK" idBody "ed1" [0, 1, 2, 3, 4, 5, 6, 7, 8, 9]
    200 "200 OK" bundleBody ⟨7, "abc"⟩ 404 "404 Not Found" trackNotFoundBody
    "track not found" 200 "200 OK" emptyBody rfl (by decide) (by decide) rfl
    rfl (by decide) (by decide) rfl (by decide) (by decide) rfl

/-- The condition under which upload_bundle actually reaches the commit
POST: the open, file read, upload POST and bundle decode all succeeded,
and the track-assignment PUT received an HTTP reply — of ANY status. -/
def commitCond (svc : UploadService) : Prop :=
  ∃ code1 text1 body1 id bytes code2 text2 body2 b,
    svc.openResp = .reply code1 text1 body1 ∧ isSuccess code1 = true ∧
    decodeEditInsertResult body1 = some id ∧
    svc.fileBytes = .ok bytes ∧
    svc.uploadResp = .reply code2 text2 body2 ∧ isSuccess code2 = true ∧
    decodeBundle body2 = some b ∧
    svc.trackResp.gotReply = true

/-- C2: the claim as stated is false on the code.  Against a service that
fails the track-assignment PUT with status 404, the commit POST is still
issued (so commit is NOT conditional on the track assignment succeeding)
and the session is never transitioned to Deleted: no delete request of
any kind appears in the trace. -/
theorem c2_counterexample :
    isSuccess 404 = false ∧
    svcTrackFail.trackResp = .reply 404 "404 Not Found" trackNotFoundBody ∧
    (upload_bundle svcTrackFail "com.example.app" "app.aab" "internal" 300).1.any
      isCommitPost = true ∧
    (upload_bundle svcTrackFail "com.example.app" "app.aab" "internal" 300).1.any
      isDeleteReq = false :=
  ⟨by decide, rfl, by decide, by decide⟩

/-- C2 (amended): the commit POST is issued if and only if the session
open, the local file read, the bundle upload (success status plus body
decode) all succeeded and the track-assignment PUT received an HTTP reply
of any status; a track-assignment failure status neither prevents the
commit nor triggers a delete. -/
theorem c2_commit_iff_upload_ok_and_track_reply
    (svc : UploadService) (pkg aab track : String) (ts : Nat) :
    (upload_bundle svc pkg aab track ts).1.any isCommitPost = true ↔
      commitCond svc := by
  obtain ⟨o, f, u, tr, c, d⟩ := svc
  cases o with
  | err e => simp [upload_bundle, commitCond, isCommitPost]
  | reply code1 text1 body1 =>
    cases h1 : isSuccess code1 with
    | false => simp [upload_bundle, commitCond, isCommitPost, h1]
    | true =>
      cases hid : decodeEditInsertResult body1 with
      | none => simp [upload_bundle, commitCond, isCommitPost, h1, hid]
      | some id =>
        cases f with
        | error e => simp [upload_bundle, commitCond, isCommitPost, h1, hid]
        | ok bytes =>
          cases u with
          | err e => simp [upload_bundle, commitCond, isCommitPost, h1, hid]
          | reply code2 text2 body2 =>
            cases h2 : isSuccess code2 with
            | false =>
              cases d with
              | err e5 =>
                simp [upload_bundle, commitCond, isCommitPost, h1, hid, h2, and_assoc]
              | reply code5 text5 body5 =>
                cases h5 : isSuccess code5 <;>
                  simp [upload_bundle, commitCond, isCommitPost, h1, hid, h2, h5,
                    and_assoc]
            | true =>
              cases hb : decodeBundle body2 with
              | none =>
                simp [upload_bundle, commitCond, isCommitPost, h1, hid, h2, hb,
                  and_assoc]
              | some b =>
                cases tr with
                | err e =>
                  simp [upload_bundle, commitCond, isCommitPost, h1, hid, h2, hb,
                    Outcome.gotReply, and_assoc]
                | reply code3 text3 body3 =>
                  cases c with
                  | err e4 =>
                    cases h3 : isSuccess code3 <;>
                      simp [upload_bundle, commitCond, isCommitPost, h1, hid, h2,
                        hb, h3, Outcome.gotReply, and_assoc]
                  | reply code4 text4 body4 =>
                    cases h3 : isSuccess code3 <;> cases h4 : isSuccess code4 <;>
                      simp [upload_bundle, commitCond, isCommitPost, h1, hid, h2,
                        hb, h3, h4, Outcome.gotReply, and_assoc]

/-- C2 witness: the amended iff applied at the concrete scripted run with
a failed track assignment, in the direction producing the commit POST. -/
theorem c2_commit_iff_upload_ok_and_track_reply_witness :
    (upload_bundle svcTrackFail "com.example.app" "app.aab" "internal" 300).1.any
      isCommitPost = true :=
  (c2_commit_iff_upload_ok_and_track_reply svcTrackFail "com.example.app"
      "app.aab" "internal" 300).mpr
    ⟨200, "200 OK", idBody, "ed1", [0, 1, 2, 3, 4, 5, 6, 7, 8, 9], 200, "200 OK",
      bundleBody, ⟨7, "abc"⟩, rfl, by decide, by decide, rfl, rfl, by decide,
      by decide, rfl⟩

/-- Scripted upload run whose upload POST never gets a reply: the send
ends in a timeout transport error (the reqwest timeout configured from
`timeout_secs`). -/
def svcUploadTimeout : UploadService :=
  { openResp := .reply 200 "200 OK" idBody
    fileBytes := .ok [0, 1, 2, 3, 4, 5, 6, 7, 8, 9]
    uploadResp := .err "operation timed out"
    trackResp := .reply 200 "200 OK" emptyBody
    commitResp := .reply 200 "200 OK" emptyBody
    rollbackDeleteResp := .reply 200 "200 OK" emptyBody }

/-- C3: the claim as stated is false on the code.  When the upload POST
times out, the transport error propagates immediately: no DELETE of any
kind is issued before (or after) the error is surfaced, contradicting
"a delete of the session follows".  (No PUT and no commit POST are
issued, which is the part of the claim that does hold.) -/
theorem c3_counterexample :
    (upload_bundle svcUploadTimeout "com.example.app" "app.aab" "internal" 300).2 =
      .error (.transport "operation timed out") ∧
    (upload_bundle svcUploadTimeout "com.example.app" "app.aab" "internal" 300).1.any
      isDeleteReq = false ∧
    (upload_bundle svcUploadTimeout "com.example.app" "app.aab" "internal" 300).1.any
      isTrackPut = false ∧
    (upload_bundle svcUploadTimeout "com.example.app" "app.aab" "internal" 300).1.any
      isCommitPost = false :=
  ⟨by rfl, by decide, by decide, by decide⟩

/-- C3 (amended): when the upload step fails, no track-assignment PUT and
no commit POST is ever issued.  The rest splits by failure kind: a
timeout/transport failure of the upload send propagates the transport
error with NO delete issued at all; a non-success upload status logs the
error, issues a DELETE — aimed at the `:commit` URL — and the function
then returns success (the upload error is logged, not returned). -/
theorem c3_upload_failure_no_put_no_commit :
    (∀ (svc : UploadService) (pkg aab track : String) (ts : Nat)
      (code1 : Nat) (text1 : String) (body1 : Json) (id : String)
      (bytes : List Nat) (e : String),
      svc.openResp = .reply code1 text1 body1 → isSuccess code1 = true →
      decodeEditInsertResult body1 = some id → svc.fileBytes = .ok bytes →
      svc.uploadResp = .err e →
      (upload_bundle svc pkg aab track ts).1.any isTrackPut = false ∧
      (upload_bundle svc pkg aab track ts).1.any isCommitPost = false ∧
      (upload_bundle svc pkg aab track ts).1.any isDeleteReq = false ∧
      (upload_bundle svc pkg aab track ts).2 = .error (.transport e)) ∧
    (∀ (svc : UploadService) (pkg aab track : String) (ts : Nat)
      (code1 : Nat) (text1 : String) (body1 : Json) (id : String)
      (bytes : List Nat) (code2 : Nat) (text2 : String) (body2 : Json)
      (code5 : Nat) (text5 : String) (body5 : Json),
      svc.openResp = .reply code1 text1 body1 → isSuccess code1 = true →
      decodeEditInsertResult body1 = some id → svc.fileBytes = .ok bytes →
      svc.uploadResp = .reply code2 text2 body2 → isSuccess code2 = false →
      svc.rollbackDeleteResp = .reply code5 text5 body5 →
      (upload_bundle svc pkg aab track ts).1.any isTrackPut = false ∧
      (upload_bundle svc pkg aab track ts).1.any isCommitPost = false ∧
      (upload_bundle svc pkg aab track ts).1.any isCommitPathDeleteReq = true ∧
      Event.logErr ("Unable to upload bundle file: " ++ toString code2) ∈
        (upload_bundle svc pkg aab track ts).1 ∧
      (upload_bundle svc pkg aab track ts).2 = .ok ()) := by
  constructor
  · intro svc pkg aab track ts code1 text1 body1 id bytes e hopen h1 hid hfile hup
    simp [upload_bundle, hopen, h1, hid, hfile, hup, isTrackPut, isCommitPost,
      isDeleteReq, Endpoint.method]
  · intro svc pkg aab track ts code1 text1 body1 id bytes code2 text2 body2
      code5 text5 body5 hopen h1 hid hfile hup h2 hdel
    cases h5 : isSuccess code5 <;>
      simp [upload_bundle, hopen, h1, hid, hfile, hup, h2, hdel, h5, isTrackPut,
        isCommitPost, isCommitPathDeleteReq, isDeleteReq, Endpoint.method]

/-- C3 witness: part one of the amended theorem applied at the concrete
timed-out upload run, and part two at a concrete 500-status upload run. -/
theorem c3_upload_failure_no_put_no_commit_witness :
    ((upload_bundle svcUploadTimeout "com.example.app" "app.aab" "internal" 300).1.any
        isTrackPut = false ∧
      (upload_bundle svcUploadTimeout "com.example.app" "app.aab" "internal" 300).1.any
        isCommitPost = false ∧
      (upload_bundle svcUploadTimeout "com.example.app" "app.aab" "internal" 300).1.any
        isDeleteReq = false ∧
      (upload_bundle svcUploadTimeout "com.example.app" "app.aab" "internal" 300).2 =
        .error (.transport "operation timed out")) :=
  c3_upload_failure_no_put_no_commit.1 svcUploadTimeout "com.example.app"
    "app.aab" "internal" 300 200 "200 OK" idBody "ed1"
    [0, 1, 2, 3, 4, 5, 6, 7, 8, 9] "operation timed out" rfl (by decide)
    (by decide) rfl rfl

/-- Scripted upload run whose upload POST returns status 500 and whose
rollback DELETE itself fails with a transport error. -/
def svcUploadFailDeleteErr : UploadService :=
  { openResp := .reply 200 "200 OK" idBody
    fileBytes := .ok [0, 1, 2, 3, 4, 5, 6, 7, 8, 9]
    uploadResp := .reply 500 "500 Internal Server Error" emptyBody
    trackResp := .reply 200 "200 OK" emptyBody
    commitResp := .reply 200 "200 OK" emptyBody
    rollbackDeleteResp := .err "connection reset by peer" }

/-- C4: evaluation of the code at the failing input.  After a 500 upload
status, the rollback is issued as a DELETE on the `:commit` URL — the
plain delete-edit endpoint is never addressed (its URL differs from the
one used exactly by the ":commit" suffix) — and when that delete's send
fails, the delete's transport error becomes the run's returned error,
overriding the original upload failure, which was only logged. -/
theorem c4_rollback_hits_commit_path :
    (upload_bundle svcUploadFailDeleteErr "com.example.app" "app.aab" "internal"
        300).1.any isPlainDeleteReq = false ∧
    (upload_bundle svcUploadFailDeleteErr "com.example.app" "app.aab" "internal"
        300).1.any isCommitPathDeleteReq = true ∧
    Endpoint.url (.deleteViaCommitPath "com.example.app" "ed1") =
      Endpoint.url (.deleteEdit "com.example.app" "ed1") ++ ":commit" ∧
    (upload_bundle svcUploadFailDeleteErr "com.example.app" "app.aab" "internal"
        300).2 = .error (.transport "connection reset by peer") ∧
    Event.logErr ("Unable to upload bundle file: 500") ∈
      (upload_bundle svcUploadFailDeleteErr "com.example.app" "app.aab" "internal"
        300).1 :=
  ⟨by decide, by decide, by decide, by rfl, by decide⟩

/-- Scripted upload run in which the local bundle-file read fails after
the session was successfully opened. -/
def svcReadFail : UploadService :=
  { openResp := .reply 200 "200 OK" idBody
    fileBytes := .error "No such file or directory (os error 2)"
    uploadResp := .reply 200 "200 OK" bundleBody
    trackResp := .reply 200 "200 OK" emptyBody
    commitResp := .reply 200 "200 OK" emptyBody
    rollbackDeleteResp := .reply 200 "200 OK" emptyBody }

/-- C5: the claim as stated is false on the code.  A failure reading the
bundle file does occur only after the session was opened, but it does NOT
trigger any compensating delete: the I/O error propagates with no DELETE
request of any kind in the trace (the session is left open). -/
theorem c5_counterexample :
    (upload_bundle svcReadFail "com.example.app" "app.aab" "internal" 300).2 =
      .error (.io "Unable to read bundle file"
        "No such file or directory (os error 2)") ∧
    (upload_bundle svcReadFail "com.example.app" "app.aab" "internal" 300).1.any
      isDeleteReq = false ∧
    Event.fileRead "app.aab" ∈
      (upload_bundle svcReadFail "com.example.app" "app.aab" "internal" 300).1 :=
  ⟨by rfl, by decide, by decide⟩

/-- C5 (amended): a failure to read the local bundle file occurs only
after the session has been opened (the read is attempted only under a
successful open), but it does NOT trigger a compensating delete: the
original local I/O error is returned with no delete request issued. -/
theorem c5_read_failure_no_rollback :
    (∀ (svc : UploadService) (pkg aab track : String) (ts : Nat)
      (code1 : Nat) (text1 : String) (body1 : Json) (id : String) (e : String),
      svc.openResp = .reply code1 text1 body1 → isSuccess code1 = true →
      decodeEditInsertResult body1 = some id → svc.fileBytes = .error e →
      (upload_bundle svc pkg aab track ts).2 =
        .error (.io "Unable to read bundle file" e) ∧
      (upload_bundle svc pkg aab track ts).1.any isDeleteReq = false) ∧
    (∀ (svc : UploadService) (pkg aab track : String) (ts : Nat),
      (upload_bundle svc pkg aab track ts).1.any isFileReadEvent = true →
      ∃ code text body, svc.openResp = .reply code text body ∧
        isSuccess code = true) := by
  constructor
  · intro svc pkg aab track ts code1 text1 body1 id e hopen h1 hid hfile
    simp [upload_bundle, hopen, h1, hid, hfile, isDeleteReq, Endpoint.method]
  · intro svc pkg aab track ts h
    obtain ⟨o, f, u, tr, c, d⟩ := svc
    cases o with
    | err e => simp [upload_bundle, isFileReadEvent] at h
    | reply code text body =>
      cases h1 : isSuccess code with
      | false => simp [upload_bundle, isFileReadEvent, h1] at h
      | true => exact ⟨code, text, body, rfl, h1⟩

/-- C5 witness: part one of the amended theorem applied at the concrete
failed-read run, part two at its trace. -/
theorem c5_read_failure_no_rollback_witness :
    ((upload_bundle svcReadFail "com.example.app" "app.aab" "internal" 300).2 =
        .error (.io "Unable to read bundle file"
          "No such file or directory (os error 2)") ∧
      (upload_bundle svcReadFail "com.example.app" "app.aab" "internal" 300).1.any
        isDeleteReq = false) ∧
    (∃ code text body, svcReadFail.openResp = .reply code text body ∧
      isSuccess code = true) :=
  ⟨c5_read_failure_no_rollback.1 svcReadFail "com.example.app" "app.aab"
      "internal" 300 200 "200 OK" idBody "ed1"
      "No such file or directory (os error 2)" rfl (by decide) (by decide) rfl,
    c5_read_failure_no_rollback.2 svcReadFail "com.example.app" "app.aab"
      "internal" 300 (by decide)⟩

/-- A listing-service script none of whose call sites is reached. -/
def unusedListSvc : ListService :=
  { openResp := .err "unused", fetchResp := .err "unused"
    deleteResp := .err "unused" }

/-- An upload-service script none of whose call sites is reached. -/
def unusedUploadSvc : UploadService :=
  { openResp := .err "unused", fileBytes := .error "unused"
    uploadResp := .err "unused", trackResp := .err "unused"
    commitResp := .err "unused", rollbackDeleteResp := .err "unused" }

/-- Full-invocation script: upload subcommand, parsing and auth succeed,
but the remote open-edit call returns status 500 (a remote API error). -/
def svcRunOpenFail : RunService :=
  { parse := .success (some (.upload "app.aab" "internal" 300))
    credLoad := .ok ()
    tokenFetch := .ok "tok"
    listB := unusedListSvc
    listT := unusedListSvc
    upld := { unusedUploadSvc with
      openResp := .reply 500 "500 Internal Server Error" emptyBody } }

/-- Full-invocation script in which loading the credentials file fails. -/
def svcRunCredFail : RunService :=
  { parse := .success none
    credLoad := .error "bad credentials file"
    tokenFetch := .ok "tok"
    listB := unusedListSvc
    listT := unusedListSvc
    upld := unusedUploadSvc }

/-- C6: the claim as stated is false on the code.  A remote API error
(the open-edit call answers 500) is logged at error severity inside the
tool, but `run` still returns Ok, so the process exits 0 — an
operational error that does not cause a non-zero exit status. -/
theorem c6_counterexample :
    (mainExit svcRunOpenFail "com.example.app").2 = 0 ∧
    (mainExit svcRunOpenFail "com.example.app").1.any
      (fun e => e == Event.logErr "Could not open edit") = true :=
  ⟨by rfl, by decide⟩

/-- C6 (amended): exactly the errors propagated as `Err` out of `run`
(transport, decode, local I/O, credential/auth) reach the driver, which
logs them at error severity and exits 1; the exit status is 0 whenever
`run` returns Ok — including on the help/parse short-circuit, and
including runs in which a remote call failed with a non-success status
and the error was only logged. -/
theorem c6_driver_exit_policy (svc : RunService) (pkg : String) :
    ((mainExit svc pkg).2 = 1 ↔ ∃ e, (run svc pkg).2 = .error e) ∧
    (∀ e, (run svc pkg).2 = .error e →
      (mainExit svc pkg).1 = (run svc pkg).1 ++ [Event.logErr e.message]) ∧
    (∀ msg, svc.parse = .failure msg → (mainExit svc pkg).2 = 0) := by
  refine ⟨?_, ?_, ?_⟩
  · rcases hr : run svc pkg with ⟨t, r⟩
    cases r with
    | ok u => simp [mainExit, hr]
    | error e => simp [mainExit, hr]
  · intro e he
    rcases hr : run svc pkg with ⟨t, r⟩
    rw [hr] at he
    simp only at he
    subst he
    simp [mainExit, hr]
  · intro msg hp
    simp [mainExit, run, hp]

/-- C6 witness: the amended theorem applied at the concrete
credentials-failure invocation, yielding exit code 1 and the logged
error message. -/
theorem c6_driver_exit_policy_witness :
    (mainExit svcRunCredFail "com.example.app").2 = 1 ∧
    (mainExit svcRunCredFail "com.example.app").1 =
      (run svcRunCredFail "com.example.app").1 ++
        [Event.logErr (RunErr.auth "bad credentials file").message] :=
  ⟨(c6_driver_exit_policy svcRunCredFail "com.example.app").1.mpr
      ⟨.auth "bad credentials file", rfl⟩,
    (c6_driver_exit_policy svcRunCredFail "com.example.app").2.1
      (.auth "bad credentials file") rfl⟩

/-- Scripted upload run whose upload POST returns status 404 with a body
that decodes to the embedded message "boom"; the rollback delete replies
200. -/
def svcUploadFail404Msg : UploadService :=
  { openResp := .reply 200 "200 OK" idBody
    fileBytes := .ok [0, 1, 2, 3, 4, 5, 6, 7, 8, 9]
    uploadResp := .reply 404 "404 Not Found" boomBody
    trackResp := .err "unused"
    commitResp := .err "unused"
    rollbackDeleteResp := .reply 200 "200 OK" emptyBody }

/-- C7: the claim as stated is false on the code.  The rule is not
uniform: when the upload POST fails with a body whose
`\x7berror:\x7bmessage\x7d\x7d` decodes (here to "boom"), the reported error is
the bare numeric status ("Unable to upload bundle file: 404"), not the
embedded message — the only error-severity line of the whole run ignores
the decodable body. -/
theorem c7_counterexample :
    decodeErrorResponse boomBody = some "boom" ∧
    (upload_bundle svcUploadFail404Msg "com.example.app" "app.aab" "internal"
        300).1.filter isErrLogEvent =
      [Event.logErr "Unable to upload bundle file: 404"] :=
  ⟨by decide, by decide⟩

/-- C7 (amended): the message-else-status rule holds for the
track-assignment and commit call sites: for a non-success reply there the
reported message is the embedded error message when the body decodes,
else the status display text — never both, never neither.  The upload
call site instead reports the bare numeric status code, ignoring the
body (and the open/fetch sites report fixed messages). -/
theorem c7_error_interpretation :
    (∀ (body : Json) (text : String),
      (∃ m, decodeErrorResponse body = some m ∧ interpretError body text = m) ∨
      (decodeErrorResponse body = none ∧ interpretError body text = text)) ∧
    (∀ (svc : UploadService) (pkg aab track : String) (ts : Nat)
      (code1 : Nat) (text1 : String) (body1 : Json) (id : String)
      (bytes : List Nat) (code2 : Nat) (text2 : String) (body2 : Json)
      (b : Bundle) (code3 : Nat) (text3 : String) (body3 : Json),
      svc.openResp = .reply code1 text1 body1 → isSuccess code1 = true →
      decodeEditInsertResult body1 = some id → svc.fileBytes = .ok bytes →
      svc.uploadResp = .reply code2 text2 body2 → isSuccess code2 = true →
      decodeBundle body2 = some b →
      svc.trackResp = .reply code3 text3 body3 → isSuccess code3 = false →
      Event.logErr ("Unable to set track: " ++ interpretError body3 text3) ∈
        (upload_bundle svc pkg aab track ts).1) ∧
    (∀ (svc : UploadService) (pkg aab track : String) (ts : Nat)
      (code1 : Nat) (text1 : String) (body1 : Json) (id : String)
      (bytes : List Nat) (code2 : Nat) (text2 : String) (body2 : Json)
      (b : Bundle) (code3 : Nat) (text3 : String) (body3 : Json)
      (code4 : Nat) (text4 : String) (body4 : Json),
      svc.openResp = .reply code1 text1 body1 → isSuccess code1 = true →
      decodeEditInsertResult body1 = some id → svc.fileBytes = .ok bytes →
      svc.uploadResp = .reply code2 text2 body2 → isSuccess code2 = true →
      decodeBundle body2 = some b →
      svc.trackResp = .reply code3 text3 body3 →
      svc.commitResp = .reply code4 text4 body4 → isSuccess code4 = false →
      Event.logErr ("Failed to commit edit: " ++ interpretError body4 text4) ∈
        (upload_bundle svc pkg aab track ts).1) ∧
    (∀ (svc : UploadService) (pkg aab track : String) (ts : Nat)
      (code1 : Nat) (text1 : String) (body1 : Json) (id : String)
      (bytes : List Nat) (code2 : Nat) (text2 : String) (body2 : Json)
      (code5 : Nat) (text5 : String) (body5 : Json),
      svc.openResp = .reply code1 text1 body1 → isSuccess code1 = true →
      decodeEditInsertResult body1 = some id → svc.fileBytes = .ok bytes →
      svc.uploadResp = .reply code2 text2 body2 → isSuccess code2 = false →
      svc.rollbackDeleteResp = .reply code5 text5 body5 →
      Event.logErr ("Unable to upload bundle file: " ++ toString code2) ∈
        (upload_bundle svc pkg aab track ts).1) := by
  refine ⟨?_, ?_, ?_, ?_⟩
  · intro body text
    cases h : decodeErrorResponse body with
    | none => exact Or.inr ⟨rfl, by simp [interpretError, h]⟩
    | some m => exact Or.inl ⟨m, rfl, by simp [interpretError, h]⟩
  · intro svc pkg aab track ts code1 text1 body1 id bytes code2 text2 body2 b
      code3 text3 body3 hopen h1 hid hfile hup h2 hb htr h3
    rcases hcm : svc.commitResp with e4 | ⟨code4, text4, body4⟩
    · simp [upload_bundle, hopen, h1, hid, hfile, hup, h2, hb, htr, h3, hcm]
    · cases h4 : isSuccess code4 <;>
        simp [upload_bundle, hopen, h1, hid, hfile, hup, h2, hb, htr, h3, hcm, h4]
  · intro svc pkg aab track ts code1 text1 body1 id bytes code2 text2 body2 b
      code3 text3 body3 code4 text4 body4 hopen h1 hid hfile hup h2 hb htr hcm h4
    cases h3 : isSuccess code3 <;>
      simp [upload_bundle, hopen, h1, hid, hfile, hup, h2, hb, htr, h3, hcm, h4]
  · intro svc pkg aab track ts code1 text1 body1 id bytes code2 text2 body2
      code5 text5 body5 hopen h1 hid hfile hup h2 hdel
    cases h5 : isSuccess code5 <;>
      simp [upload_bundle, hopen, h1, hid, hfile, hup, h2, hdel, h5]

/-- C7 witness: the message branch of the dichotomy at the concrete
"track not found" body, the track-site clause at the concrete failed
track-assignment run, and the upload-site clause at the concrete 404
upload run. -/
theorem c7_error_interpretation_witness :
    ((∃ m, decodeErrorResponse trackNotFoundBody = some m ∧
        interpretError trackNotFoundBody "404 Not Found" = m) ∨
      (decodeErrorResponse trackNotFoundBody = none ∧
        interpretError trackNotFoundBody "404 Not Found" = "404 Not Found")) ∧
    Event.logErr ("Unable to set track: " ++
        interpretError trackNotFoundBody "404 Not Found") ∈
      (upload_bundle svcTrackFail "com.example.app" "app.aab" "internal" 300).1 ∧
    Event.logErr ("Unable to upload bundle file: " ++ toString 404) ∈
      (upload_bundle svcUploadFail404Msg "com.example.app" "app.aab" "internal"
        300).1 :=
  ⟨c7_error_interpretation.1 trackNotFoundBody "404 Not Found",
    c7_error_interpretation.2.1 svcTrackFail "com.example.app" "app.aab"
      "internal" 300 200 "200 OK" idBody "ed1" [0, 1, 2, 3, 4, 5, 6, 7, 8, 9]
      200 "200 OK" bundleBody ⟨7, "abc"⟩ 404 "404 Not Found" trackNotFoundBody
      rfl (by decide) (by decide) rfl rfl (by decide) (by decide) rfl (by decide),
    c7_error_interpretation.2.2.2 svcUploadFail404Msg "com.example.app" "app.aab"
      "internal" 300 200 "200 OK" idBody "ed1" [0, 1, 2, 3, 4, 5, 6, 7, 8, 9]
      404 "404 Not Found" boomBody 200 "200 OK" emptyBody rfl (by decide)
      (by decide) rfl rfl (by decide) rfl⟩

/-- Listing script whose bundle fetch dies with a transport error. -/
def svcListFetchErr : ListService :=
  { openResp := .reply 200 "200 OK" idBody
    fetchResp := .err "connection reset"
    deleteResp := .reply 200 "200 OK" emptyBody }

/-- Listing script returning the spec scenario's two bundles
(versionCode 5 / sha256 "aa" and versionCode 6 / sha256 "bb"). -/
def twoBundlesBody : Json :=
  .jobj [("bundles", .jarr
    [.jobj [("versionCode", .jnum 5), ("sha256", .jstr "aa")],
     .jobj [("versionCode", .jnum 6), ("sha256", .jstr "bb")]])]

/-- Listing script for the two-bundle happy-path scenario. -/
def svcListTwoBundles : ListService :=
  { openResp := .reply 200 "200 OK" idBody
    fetchResp := .reply 200 "200 OK" twoBundlesBody
    deleteResp := .reply 200 "200 OK" emptyBody }

/-- C8: the claim as stated is false on the code.  When the bundle fetch
fails at the transport level (the send itself errors), the error
propagates immediately by `?`: no delete is attempted at all, against the
claim's "the delete is attempted even when the fetch fails". -/
theorem c8_counterexample :
    (list_bundles svcListFetchErr "com.example.app").1.countP isDeleteReq = 0 ∧
    (list_bundles svcListFetchErr "com.example.app").2 =
      .error (.transport "connection reset") :=
  ⟨by decide, by rfl⟩

/-- C8 (amended): a successful listBundles run whose fetch returns
bundles bs produces exactly the trace open-log, open request, fetch
request, one output line per bundle in list order (version plus digest),
delete-log and one plain delete request — in particular exactly one open
and one delete call; and when the fetch returns a non-success status
(rather than a transport/decode failure, which propagates with no
delete), the plain delete is still attempted after logging the fetch
error. -/
theorem c8_list_bundles_behavior :
    (∀ (svc : ListService) (pkg : String)
      (code1 : Nat) (text1 : String) (body1 : Json) (id : String)
      (bs : List Bundle) (code2 : Nat) (text2 : String) (body2 : Json)
      (code3 : Nat) (text3 : String) (body3 : Json),
      svc.openResp = .reply code1 text1 body1 → isSuccess code1 = true →
      decodeEditInsertResult body1 = some id →
      svc.fetchResp = .reply code2 text2 body2 → isSuccess code2 = true →
      decodeEditBundlesList body2 = some bs →
      svc.deleteResp = .reply code3 text3 body3 → isSuccess code3 = true →
      list_bundles svc pkg =
        ([Event.logOut "Opening an edit", Event.req (.openEdit pkg),
          Event.req (.bundlesList pkg id)]
          ++ bs.map (fun b => Event.logOut (bundleLine b))
          ++ [Event.logOut "Deleting edit", Event.req (.deleteEdit pkg id)],
         .ok ()) ∧
      (list_bundles svc pkg).1.countP isOpenReq = 1 ∧
      (list_bundles svc pkg).1.countP isDeleteReq = 1) ∧
    (∀ (svc : ListService) (pkg : String)
      (code1 : Nat) (text1 : String) (body1 : Json) (id : String)
      (code2 : Nat) (text2 : String) (body2 : Json),
      svc.openResp = .reply code1 text1 body1 → isSuccess code1 = true →
      decodeEditInsertResult body1 = some id →
      svc.fetchResp = .reply code2 text2 body2 → isSuccess code2 = false →
      (list_bundles svc pkg).1.any isPlainDeleteReq = true ∧
      Event.logErr "Unable to get list of bundles" ∈ (list_bundles svc pkg).1) := by
  constructor
  · intro svc pkg code1 text1 body1 id bs code2 text2 body2 code3 text3 body3
      hopen h1 hid hfetch h2 hbs hdel h3
    have htr : list_bundles svc pkg =
        ([Event.logOut "Opening an edit", Event.req (.openEdit pkg),
          Event.req (.bundlesList pkg id)]
          ++ bs.map (fun b => Event.logOut (bundleLine b))
          ++ [Event.logOut "Deleting edit", Event.req (.deleteEdit pkg id)],
         .ok ()) := by
      simp [list_bundles, deleteTail, hopen, h1, hid, hfetch, h2, hbs, hdel, h3]
    refine ⟨htr, ?_, ?_⟩ <;>
      rw [htr] <;>
      simp [List.countP_append, List.countP_map, isOpenReq, isDeleteReq,
        Endpoint.method, List.countP_cons, Function.comp]
  · intro svc pkg code1 text1 body1 id code2 text2 body2 hopen h1 hid hfetch h2
    rcases hdel : svc.deleteResp with e3 | ⟨code3, text3, body3⟩
    · simp [list_bundles, deleteTail, hopen, h1, hid, hfetch, h2, hdel,
        isPlainDeleteReq]
    · cases h3 : isSuccess code3 <;>
        simp [list_bundles, deleteTail, hopen, h1, hid, hfetch, h2, hdel, h3,
          isPlainDeleteReq]

/-- C8 witness: the happy-path clause applied at the concrete two-bundle
scenario service, and the fetch-failure clause at a concrete 500 fetch. -/
theorem c8_list_bundles_behavior_witness :
    (list_bundles svcListTwoBundles "com.example.app" =
      ([Event.logOut "Opening an edit",
        Event.req (.openEdit "com.example.app"),
        Event.req (.bundlesList "com.example.app" "ed1")]
        ++ [Bundle.mk 5 "aa", Bundle.mk 6 "bb"].map
            (fun b => Event.logOut (bundleLine b))
        ++ [Event.logOut "Deleting edit",
          Event.req (.deleteEdit "com.example.app" "ed1")],
       .ok ()) ∧
      (list_bundles svcListTwoBundles "com.example.app").1.countP isOpenReq = 1 ∧
      (list_bundles svcListTwoBundles "com.example.app").1.countP
        isDeleteReq = 1) :=
  c8_list_bundles_behavior.1 svcListTwoBundles "com.example.app" 200 "200 OK"
    idBody "ed1" [⟨5, "aa"⟩, ⟨6, "bb"⟩] 200 "200 OK" twoBundlesBody 200 "200 OK"
    emptyBody rfl (by decide) (by decide) rfl (by decide) (by decide) rfl
    (by decide)

/-- A release as the SPEC describes it: status plus an OPTIONAL list of
version-code strings.  This matches the `Release` declared in the repo's
(unused) src/src/api_structs.rs, where `version_codes` is
`Option<Vec<String>>`; it exists only for comparison with the lib.rs
decoder actually used by `list_tracks`. -/
structure SpecRelease where
  status : String
  version_codes : Option (List String)
  deriving DecidableEq

/-- Decoder following the spec's words (`versionCodes?` optional): a
missing `versionCodes` field decodes to `none` instead of failing. -/
def decodeSpecRelease (j : Json) : Option SpecRelease :=
  match j.getField "status" with
  | none => none
  | some sv =>
    match sv.asStr with
    | none => none
    | some st =>
      match j.getField "versionCodes" with
      | none => some ⟨st, none⟩
      | some vv =>
        match vv.asArr with
        | none => none
        | some xs =>
          match decodeStrItems xs with
          | none => none
          | some vcs => some ⟨st, some vcs⟩

/-- A release object omitting the `versionCodes` field. -/
def releaseNoCodes : Json := .jobj [("status", .jstr "draft")]

/-- A tracks-list response in which the single release omits
`versionCodes`. -/
def tracksBodyNoCodes : Json :=
  .jobj [("tracks", .jarr [.jobj [("track", .jstr "internal"),
    ("releases", .jarr [releaseNoCodes])]])]

/-- Listing script whose tracks fetch returns `tracksBodyNoCodes`. -/
def svcTracksNoCodes : ListService :=
  { openResp := .reply 200 "200 OK" idBody
    fetchResp := .reply 200 "200 OK" tracksBodyNoCodes
    deleteResp := .reply 200 "200 OK" emptyBody }

/-- C9: evaluation of the code at the failing input.  The `Release`
struct used by `list_tracks` (lib.rs lines 105-110) declares
`versionCodes` as a required `Vec<String>`, so a tracks response whose
release omits the field fails to decode: the run returns a decode error,
no track line is emitted (and, the decode failing after a success
status, even the session delete is skipped).  The spec-shaped decoder
(optional `versionCodes`, matching api_structs.rs) accepts the same
body. -/
theorem c9_missing_version_codes_fails :
    decodeRelease releaseNoCodes = none ∧
    decodeTracksList tracksBodyNoCodes = none ∧
    (list_tracks svcTracksNoCodes "com.example.app").2 = .error .decode ∧
    (list_tracks svcTracksNoCodes "com.example.app").1.any
      (fun e => e == Event.logOut (trackLine ⟨"internal", []⟩)) = false ∧
    (list_tracks svcTracksNoCodes "com.example.app").1.countP isDeleteReq = 0 ∧
    decodeSpecRelease releaseNoCodes = some ⟨"draft", none⟩ :=
  ⟨by decide, by decide, by rfl, by decide, by decide, by decide⟩

/-- Full-invocation script: valid global flags, no subcommand; parsing,
credential loading and token fetch succeed. -/
def svcRunNoCmd : RunService :=
  { parse := .success none
    credLoad := .ok ()
    tokenFetch := .ok "tok"
    listB := unusedListSvc
    listT := unusedListSvc
    upld := unusedUploadSvc }

/-- C10: with valid global flags but no subcommand, the tool still logs
the scope announcement and requests the OAuth token, issues no HTTP
request at all (no open, list, upload, commit or delete), and returns
success. -/
theorem c10_no_subcommand (svc : RunService) (pkg tok : String)
    (hp : svc.parse = .success none) (hc : svc.credLoad = .ok ())
    (ht : svc.tokenFetch = .ok tok) :
    run svc pkg =
      ([Event.logOut "Requesting OAuth token with Android Publisher scope",
        Event.authToken], .ok ()) ∧
    (run svc pkg).1.any isReqEvent = false ∧
    Event.authToken ∈ (run svc pkg).1 := by
  simp [run, hp, hc, ht, isReqEvent]

/-- C10 witness: the theorem applied at the concrete no-subcommand
invocation script. -/
theorem c10_no_subcommand_witness :
    run svcRunNoCmd "com.example.app" =
      ([Event.logOut "Requesting OAuth token with Android Publisher scope",
        Event.authToken], .ok ()) ∧
    (run svcRunNoCmd "com.example.app").1.any isReqEvent = false ∧
    Event.authToken ∈ (run svcRunNoCmd "com.example.app").1 :=
  c10_no_subcommand svcRunNoCmd "com.example.app" "tok" rfl rfl rfl

end Gplay
